import Mathlib

/-!
Verification of the DigiPolli outreach-campaign core.

This file gives a shallow embedding of the campaign orchestrator and its
record store and proves (or refutes) the documented properties against it.

Embedding conventions:
* `src/types.ts` data types become Lean structures; optional TS fields
  become `Option`-valued fields.
* ISO timestamp strings are abstracted to `Nat` time values (only their
  identity and ordering matter to the properties considered here).
* `localStorage`-backed collections in `src/services/backendService.ts`
  become explicit `List` state threaded through the operations.
* External collaborators (the AI validator and draft generator of
  `src/geminiService.ts`, the Gmail transport of `smtpService`) are
  modelled by oracle parameters carrying the collaborator's response.
* JavaScript `Math.round` on the non-negative rationals that occur here
  is `mathRound q = ⌊q + 1/2⌋`.
-/

namespace DigiPolli

/-! ## Data model (`src/types.ts`) -/

inductive ValidationStatus where
  | VALID
  | RISKY
  | INVALID
  | UNCHECKED
deriving DecidableEq, Repr

inductive CampaignMode where
  | MANUAL
  | AI_CUSTOM
deriving DecidableEq, Repr

inductive SendStatus where
  | SENT
  | FAILED
  | SCHEDULED
deriving DecidableEq, Repr

inductive CampaignStatus where
  | QUEUED
  | SENDING
  | COMPLETED
  | SCHEDULED
deriving DecidableEq, Repr

structure OutreachLead where
  email : String
  businessName : Option String := none
  website : Option String := none
  location : Option String := none
  seoErrors : Option String := none
  notes : Option String := none
  validationStatus : Option ValidationStatus := none
  validationReason : Option String := none
deriving DecidableEq, Repr

structure DraftEmail where
  id : String
  recipient : String
  businessName : String
  subject : String
  body : String
deriving DecidableEq, Repr

structure SentEmail where
  id : String
  campaignId : String
  recipient : String
  businessName : String
  website : Option String := none
  subject : String
  body : String
  status : SendStatus
  opened : Bool
  openedAt : Option Nat := none
  timestamp : Nat
  scheduledTime : Option Nat := none
deriving DecidableEq, Repr

structure CampaignStatsSnapshot where
  total : Nat
  sent : Nat
  failed : Nat
  pending : Nat
  opened : Nat
deriving DecidableEq, Repr

structure Campaign where
  id : String
  userId : String
  name : String
  mode : CampaignMode
  fileName : String
  senderEmail : String
  scheduledTime : Option Nat := none
  timezone : Option String := none
  stats : CampaignStatsSnapshot
  verificationHash : String
  createdAt : Nat
  status : CampaignStatus
deriving DecidableEq, Repr

/-! ## Record store (`src/services/backendService.ts`) -/

/--
JavaScript `Math.round` restricted to the values occurring in this code
base (finite, non-negative): round half away from zero is round half up,
i.e. `⌊q + 1/2⌋`.
-/
def mathRound (q : ℚ) : ℤ := ⌊q + 1 / 2⌋

/-- `backendService.getSentEmails(campaignId)`: full scan filtered by campaign id. -/
def getSentEmails (store : List SentEmail) (campaignId : String) : List SentEmail :=
  store.filter fun e => decide (e.campaignId = campaignId)

/--
`backendService.logSentEmail`: unshift the new record onto the store and
keep only the first 10000 entries (`emails.slice(0, 10000)`).
-/
def logSentEmail (store : List SentEmail) (email : SentEmail) : List SentEmail :=
  (email :: store).take 10000

/-- The live aggregate returned by `backendService.getCampaignStats`. -/
structure CampaignStats where
  total : Nat
  sent : Nat
  failed : Nat
  opened : Nat
  successRate : ℤ
  openRate : ℤ
  emails : List SentEmail
deriving DecidableEq, Repr

/--
`backendService.getCampaignStats(campaignId)`: recompute all aggregates
from the stored send records of the campaign.
-/
def getCampaignStats (store : List SentEmail) (campaignId : String) : CampaignStats :=
  let emails := getSentEmails store campaignId
  let sent := (emails.filter fun e => decide (e.status = SendStatus.SENT)).length
  let failed := (emails.filter fun e => decide (e.status = SendStatus.FAILED)).length
  let opened := (emails.filter fun e => e.opened).length
  let total := emails.length
  let successRate : ℤ := if total > 0 then mathRound (((sent : ℚ) / (total : ℚ)) * 100) else 0
  let openRate : ℤ := if sent > 0 then mathRound (((opened : ℚ) / (sent : ℚ)) * 100) else 0
  { total := total, sent := sent, failed := failed, opened := opened,
    successRate := successRate, openRate := openRate, emails := emails }

/--
`backendService.simulateEmailOpen(emailId)`: find the first record with
the given id (`findIndex`) and overwrite it in place with
`opened := true, openedAt := <current time>`; if no record matches,
nothing happens.
-/
def simulateEmailOpen (store : List SentEmail) (emailId : String) (now : Nat) : List SentEmail :=
  match store with
  | [] => []
  | e :: rest =>
      if e.id = emailId then
        { e with opened := true, openedAt := some now } :: rest
      else
        e :: simulateEmailOpen rest emailId now

/-- Replace the first campaign with the given id (`campaigns[existingIdx] = campaign`). -/
def replaceCampaign (c : Campaign) : List Campaign → List Campaign
  | [] => []
  | x :: rest => if x.id = c.id then c :: rest else x :: replaceCampaign c rest

/--
`backendService.saveCampaign`: point-update the campaign with the same id
if present, otherwise unshift the new campaign.
-/
def saveCampaign (campaigns : List Campaign) (c : Campaign) : List Campaign :=
  if campaigns.any (fun x => decide (x.id = c.id)) then replaceCampaign c campaigns
  else c :: campaigns

/-! Activity log (`backendService.logActivity`). -/

inductive ActivityType where
  | LEAD_GEN
  | CAMPAIGN
  | SECURITY_EVENT
  | VALIDATION
  | API_VERIFICATION
deriving DecidableEq, Repr

inductive AccountStatus where
  | TRIAL
  | PAID
deriving DecidableEq, Repr

structure ActivityLogInput where
  niche : Option String := none
  location : Option String := none
  campaignName : Option String := none
  mode : Option CampaignMode := none
  fileName : Option String := none
  connectionMethod : Option String := none
  status : Option String := none
  scheduledTime : Option Nat := none
  emailCount : Option Nat := none
  provider : Option String := none
deriving DecidableEq, Repr

structure ActivityLogOutput where
  rowCount : Nat
  sentCount : Option Nat := none
  success : Option Bool := none
  error : Option String := none
  validCount : Option Nat := none
  httpStatus : Option Nat := none
deriving DecidableEq, Repr

structure ActivityLog where
  id : String
  timestamp : Nat
  userId : String
  userEmail : String
  accountStatus : AccountStatus
  type : ActivityType
  input : ActivityLogInput
  output : ActivityLogOutput
deriving DecidableEq, Repr

/--
`backendService.logActivity`: unshift the new log entry and keep only the
first 5000 entries (`logs.slice(0, 5000)`).
-/
def logActivity (logs : List ActivityLog) (log : ActivityLog) : List ActivityLog :=
  (log :: logs).take 5000

/-! ## Collaborator models

The generative-AI calls of `src/geminiService.ts` and the Gmail transport
of `smtpService.dispatch` are external collaborators; their responses are
supplied as oracle values.
-/

/--
`validateEmailsAgent` (`src/geminiService.ts`): calls the AI validator on
the whole batch.  On a successful call it returns whatever the provider
parsed; on a thrown collaborator error the `catch` branch returns every
input lead with `validationStatus` overwritten to `UNCHECKED`.
-/
def validateEmailsAgent (leads : List OutreachLead)
    (response : Except String (List OutreachLead)) : List OutreachLead :=
  match response with
  | Except.ok parsed => parsed
  | Except.error _ =>
      leads.map fun l => { l with validationStatus := some ValidationStatus.UNCHECKED }

/-- Per-lead outcome of `processOutreachWithAgent` as observed by the draft loop. -/
inductive DraftResult where
  | ok (subject body : String)
  | error (msg : String)
deriving DecidableEq, Repr

/-- Outcome of one `smtpService.dispatch` transport call. -/
inductive DispatchResult where
  | success (messageId : String)
  | failure (error : String)
deriving DecidableEq, Repr

/-! ## Campaign orchestrator (`src/components/EmailOutreach.tsx`)

The component state relevant to the campaign lifecycle becomes an explicit
state record; each handler becomes a state-transformer, and the operator /
collaborator driven control flow becomes a transition relation.
Presentation-only state (progress percentage, error banner text, the
search box) is omitted.
-/

inductive OutreachStep where
  | HISTORY
  | AUTH_GATE
  | INTAKE
  | VALIDATION
  | OPTIONS
  | CONFIG
  | GENERATING
  | REVIEW
  | SENDING
  | SUMMARY
  | CAMPAIGN_DETAIL
deriving DecidableEq, Repr

/-- The persistent collections behind `backendService`. -/
structure Backend where
  sentEmails : List SentEmail
  campaigns : List Campaign
  activityLogs : List ActivityLog
deriving DecidableEq, Repr

structure OrchState where
  step : OutreachStep
  mode : CampaignMode
  campaignName : String
  leads : List OutreachLead
  drafts : List DraftEmail
  subject : String
  body : String
  isScheduled : Bool
  scheduledDateTime : Option Nat
  transmissionLogs : List String
  results : Option CampaignStats
  selectedCampaignId : Option String
  backend : Backend
  /-- Instrumentation: number of `smtpService.dispatch` calls made so far. -/
  transportCalls : Nat
  userId : String
  senderEmail : String
deriving DecidableEq, Repr

def initState : OrchState where
  step := OutreachStep.HISTORY
  mode := CampaignMode.AI_CUSTOM
  campaignName := ""
  leads := []
  drafts := []
  subject := "Personalized SEO Strategy for \x7bBusiness_Name\x7d"
  body := "Hi \x7bBusiness_Name\x7d,\n\nI was reviewing \x7bWebsite\x7d and noticed a few SEO issues that are likely holding back your rankings.\n\nWould you be open to a quick chat about fixing these?\n\nBest,\n[Your Name]"
  isScheduled := false
  scheduledDateTime := none
  transmissionLogs := []
  results := none
  selectedCampaignId := none
  backend := { sentEmails := [], campaigns := [], activityLogs := [] }
  transportCalls := 0
  userId := ""
  senderEmail := ""

/-- `resetFlow`: clear the working state and restart at INTAKE or AUTH_GATE. -/
def resetFlow (isVerified : Bool) (s : OrchState) : OrchState :=
  { s with campaignName := "", leads := [], drafts := [], transmissionLogs := [],
           isScheduled := false, scheduledDateTime := none,
           step := if isVerified then OutreachStep.INTAKE else OutreachStep.AUTH_GATE }

/-- One lead produced by the INTAKE file upload: trimmed line, `UNCHECKED`. -/
def mkUploadLead (line : String) : OutreachLead :=
  { email := line.trim, validationStatus := some ValidationStatus.UNCHECKED }

/--
`runMailValidator`: rejected outright when the lead list is empty
(`if (leads.length === 0) return`); otherwise the step becomes VALIDATION
and the leads are replaced by the validator's answer (on a thrown
validator error the leads are left unchanged).  Note: the campaign name is
not consulted.
-/
def runMailValidator (s : OrchState) (result : Option (List OutreachLead)) : OrchState :=
  if s.leads.length = 0 then s
  else
    { s with step := OutreachStep.VALIDATION,
             leads := match result with
                      | some validated => validated
                      | none => s.leads }

/-- JavaScript `lead.businessName || 'Owner'` (empty string is falsy). -/
def jsOr (o : Option String) (dflt : String) : String :=
  match o with
  | some b => if b = "" then dflt else b
  | none => dflt

/-- The leads eligible for drafting: `leads.filter(l => l.validationStatus !== 'INVALID')`. -/
def validLeads (leads : List OutreachLead) : List OutreachLead :=
  leads.filter fun l => decide (l.validationStatus ≠ some ValidationStatus.INVALID)

/--
The body of the `generateDrafts` loop over the processed prefix of the
eligible leads, paired with the draft generator's per-lead response:
a successful response pushes one draft (recipient is the lead's email),
a thrown response only appends a transmission-log line.
Returns (drafts produced, log lines appended).
-/
def genLoop (now : Nat) : Nat → List (OutreachLead × DraftResult) → List DraftEmail × List String
  | _, [] => ([], [])
  | i, (lead, DraftResult.ok subj bod) :: rest =>
      let r := genLoop now (i + 1) rest
      ({ id := "DFT-" ++ toString i ++ "-" ++ toString now,
         recipient := lead.email,
         businessName := jsOr lead.businessName "Owner",
         subject := subj, body := bod } :: r.1, r.2)
  | i, (lead, DraftResult.error msg) :: rest =>
      let r := genLoop now (i + 1) rest
      (r.1, ("Drafting Error for " ++ lead.email ++ ": " ++ msg) :: r.2)

/--
`generateDrafts` after the GENERATING step has been entered: the loop
processes the first `k` eligible leads (the cooperative-cancellation flag
is polled before each iteration, so an abort at `k` leaves exactly the
first `k` processed).  If the flag was never set (`aborted = false`,
forcing `k` = all) the produced drafts are kept and the step becomes
REVIEW; on abort the produced drafts are discarded (the `drafts` state is
not written) and the step becomes OPTIONS.
-/
def runGenerateLoop (s : OrchState) (now : Nat) (results : List DraftResult)
    (k : Nat) (aborted : Bool) : OrchState :=
  let out := genLoop now 0 (((validLeads s.leads).zip results).take k)
  if aborted then
    { s with transmissionLogs := s.transmissionLogs ++ out.2, step := OutreachStep.OPTIONS }
  else
    { s with transmissionLogs := s.transmissionLogs ++ out.2, drafts := out.1,
             step := OutreachStep.REVIEW }

/-- Accumulator of the immediate dispatch loop in `executeDispatch`. -/
structure SendLoopOut where
  store : List SentEmail
  sent : Nat
  failed : Nat
  logs : List String
  calls : Nat
deriving DecidableEq, Repr

/--
One iteration of the immediate dispatch loop: the transport is called on
the draft; on success a `SENT` record carrying the transport-returned
message id is appended via `logSentEmail` and the sent counter bumped; on
failure the `catch` block only bumps the failed counter and appends a log
line — no record is written.
-/
def dispatchStep (cid : String) (now : Nat) (acc : SendLoopOut)
    (item : DraftEmail × DispatchResult) : SendLoopOut :=
  match item.2 with
  | DispatchResult.success mid =>
      { store := logSentEmail acc.store
          { id := mid, campaignId := cid, recipient := item.1.recipient,
            businessName := item.1.businessName, subject := item.1.subject,
            body := item.1.body, status := SendStatus.SENT, opened := false,
            timestamp := now },
        sent := acc.sent + 1, failed := acc.failed,
        logs := acc.logs ++ ["ACK: " ++ item.1.recipient],
        calls := acc.calls + 1 }
  | DispatchResult.failure err =>
      { store := acc.store, sent := acc.sent, failed := acc.failed + 1,
        logs := acc.logs ++ ["FAIL: " ++ item.1.recipient ++ " - " ++ err],
        calls := acc.calls + 1 }

/-- The immediate dispatch loop over the processed prefix of the drafts. -/
def dispatchLoop (cid : String) (now : Nat) (items : List (DraftEmail × DispatchResult))
    (init : SendLoopOut) : SendLoopOut :=
  items.foldl (dispatchStep cid now) init

/--
`executeDispatch`, immediate branch, after the SENDING step has been
entered: run the dispatch loop on the first `k` drafts (cancellation is
polled before each item).  If the flag was never set the COMPLETED
campaign (stats snapshot from the loop counters) is saved, the summary
stats are recomputed from the store, and the step becomes SUMMARY; on
abort nothing further happens (no campaign row is written and the step is
left at SENDING).
-/
def executeDispatchImmediate (s : OrchState) (cid : String) (now : Nat) (vh : String)
    (outcomes : List DispatchResult) (k : Nat) (aborted : Bool) : OrchState :=
  let out := dispatchLoop cid now ((s.drafts.zip outcomes).take k)
      { store := s.backend.sentEmails, sent := 0, failed := 0, logs := [], calls := 0 }
  let s1 := { s with backend := { s.backend with sentEmails := out.store },
                     transmissionLogs := s.transmissionLogs ++ out.logs,
                     transportCalls := s.transportCalls + out.calls }
  if aborted then s1
  else
    let camp : Campaign :=
      { id := cid, userId := s.userId, name := s.campaignName, mode := s.mode,
        fileName := "broadcast.csv", senderEmail := s.senderEmail,
        stats := { total := s.drafts.length, sent := out.sent, failed := out.failed,
                   pending := 0, opened := 0 },
        verificationHash := vh, createdAt := now, status := CampaignStatus.COMPLETED }
    { s1 with backend := { s1.backend with campaigns := saveCampaign s1.backend.campaigns camp },
              results := some (getCampaignStats out.store cid),
              step := OutreachStep.SUMMARY }

/-- The `SCHEDULED` record written for one draft by the scheduled branch. -/
def mkScheduledRecord (cid : String) (now t : Nat) (d : DraftEmail) (recId : String) : SentEmail :=
  { id := recId, campaignId := cid, recipient := d.recipient,
    businessName := d.businessName, subject := d.subject, body := d.body,
    status := SendStatus.SCHEDULED, opened := false, timestamp := now,
    scheduledTime := some t }

/--
`executeDispatch`, scheduled branch (`isScheduled` true): if no dispatch
timestamp is set the commit is rejected (alert) and the state is
unchanged; otherwise — with no check that the timestamp is in the
future — the SCHEDULED campaign is saved, one SCHEDULED record per draft
is appended (`drafts.forEach(... logSentEmail ...)`, locally generated
`SCH-` ids supplied as `recIds`), the summary stats are recomputed, and
the step becomes SUMMARY without ever entering SENDING.  No transport
call is made.
-/
def executeDispatchScheduled (s : OrchState) (cid : String) (now : Nat) (vh : String)
    (recIds : List String) : OrchState :=
  match s.scheduledDateTime with
  | none => s
  | some t =>
      let camp : Campaign :=
        { id := cid, userId := s.userId, name := s.campaignName, mode := s.mode,
          fileName := "manual_ingest.csv", senderEmail := s.senderEmail,
          scheduledTime := some t,
          stats := { total := s.drafts.length, sent := 0, failed := 0,
                     pending := s.drafts.length, opened := 0 },
          verificationHash := vh, createdAt := now, status := CampaignStatus.SCHEDULED }
      let store1 := (s.drafts.zip recIds).foldl
          (fun st p => logSentEmail st (mkScheduledRecord cid now t p.1 p.2))
          s.backend.sentEmails
      let backend1 : Backend :=
        { s.backend with campaigns := saveCampaign s.backend.campaigns camp,
                         sentEmails := store1 }
      { s with backend := backend1,
               results := some (getCampaignStats store1 cid),
               step := OutreachStep.SUMMARY }

/--
The operator / collaborator driven transitions of the campaign engine.
Oracle parameters carry collaborator responses and the point at which the
cooperative-cancellation flag was observed set.
-/
inductive Transition : OrchState → OrchState → Prop
  | startNew (s : OrchState) (verified : Bool)
      (h : s.step = OutreachStep.HISTORY) :
      Transition s (resetFlow verified s)
  | verifyOk (s : OrchState)
      (h : s.step = OutreachStep.AUTH_GATE) :
      Transition s { s with step := OutreachStep.INTAKE }
  | setName (s : OrchState) (n : String)
      (h : s.step = OutreachStep.INTAKE) :
      Transition s { s with campaignName := n }
  | uploadLeads (s : OrchState) (lines : List String)
      (h : s.step = OutreachStep.INTAKE) :
      Transition s { s with leads := lines.map mkUploadLead }
  | runValidator (s : OrchState) (result : Option (List OutreachLead))
      (h : s.step = OutreachStep.INTAKE) :
      Transition s (runMailValidator s result)
  | confirmValidation (s : OrchState)
      (h : s.step = OutreachStep.VALIDATION) :
      Transition s { s with step := OutreachStep.OPTIONS }
  | chooseMode (s : OrchState) (m : CampaignMode)
      (h : s.step = OutreachStep.OPTIONS) :
      Transition s { s with mode := m, step := OutreachStep.CONFIG }
  | setTemplates (s : OrchState) (subj bod : String)
      (h : s.step = OutreachStep.CONFIG) :
      Transition s { s with subject := subj, body := bod }
  | startGenerate (s : OrchState)
      (h : s.step = OutreachStep.CONFIG) :
      Transition s { s with step := OutreachStep.GENERATING }
  | runGenerate (s : OrchState) (now : Nat) (results : List DraftResult)
      (k : Nat) (aborted : Bool)
      (h : s.step = OutreachStep.GENERATING)
      (hlen : results.length = (validLeads s.leads).length)
      (hk : k ≤ (validLeads s.leads).length)
      (hab : aborted = false → k = (validLeads s.leads).length) :
      Transition s (runGenerateLoop s now results k aborted)
  | setSchedule (s : OrchState) (b : Bool) (t : Option Nat)
      (h : s.step = OutreachStep.REVIEW) :
      Transition s { s with isScheduled := b, scheduledDateTime := t }
  | commitScheduled (s : OrchState) (cid : String) (now : Nat) (vh : String)
      (recIds : List String)
      (h : s.step = OutreachStep.REVIEW)
      (hsch : s.isScheduled = true)
      (hids : recIds.length = s.drafts.length) :
      Transition s (executeDispatchScheduled s cid now vh recIds)
  | authorizeImmediate (s : OrchState)
      (h : s.step = OutreachStep.REVIEW)
      (him : s.isScheduled = false) :
      Transition s { s with step := OutreachStep.SENDING,
                            transmissionLogs := ["Broadcasting mission: " ++ s.campaignName] }
  | runSend (s : OrchState) (cid : String) (now : Nat) (vh : String)
      (outcomes : List DispatchResult) (k : Nat) (aborted : Bool)
      (h : s.step = OutreachStep.SENDING)
      (hlen : outcomes.length = s.drafts.length)
      (hk : k ≤ s.drafts.length)
      (hab : aborted = false → k = s.drafts.length) :
      Transition s (executeDispatchImmediate s cid now vh outcomes k aborted)
  | dismissSummary (s : OrchState) (verified : Bool)
      (h : s.step = OutreachStep.SUMMARY) :
      Transition s (resetFlow verified s)
  | openDetail (s : OrchState) (cid : String)
      (h : s.step = OutreachStep.HISTORY) :
      Transition s { s with selectedCampaignId := some cid,
                            step := OutreachStep.CAMPAIGN_DETAIL }
  | closeDetail (s : OrchState)
      (h : s.step = OutreachStep.CAMPAIGN_DETAIL) :
      Transition s { s with step := OutreachStep.HISTORY }

/-- States reachable from the initial component state. -/
inductive Reachable : OrchState → Prop
  | init : Reachable initState
  | step {s t : OrchState} (hr : Reachable s) (ht : Transition s t) : Reachable t

/-! ## Helper lemmas -/

/-- Below the retention bound, `logSentEmail` is a plain cons. -/
theorem logSentEmail_cons {store : List SentEmail} (e : SentEmail)
    (h : store.length < 10000) : logSentEmail store e = e :: store := by
  unfold logSentEmail
  exact List.take_of_length_le (by simp only [List.length_cons]; omega)

/-- The scheduled-branch fold appends one record per draft (newest first). -/
theorem schedFold_eq (cid : String) (now t : Nat) (pairs : List (DraftEmail × String))
    (st : List SentEmail) (h : st.length + pairs.length ≤ 10000) :
    pairs.foldl (fun acc p => logSentEmail acc (mkScheduledRecord cid now t p.1 p.2)) st
      = (pairs.map fun p => mkScheduledRecord cid now t p.1 p.2).reverse ++ st := by
  induction pairs generalizing st with
  | nil => simp
  | cons p rest ih =>
      simp only [List.foldl_cons, List.map_cons, List.reverse_cons]
      rw [logSentEmail_cons _ (by simp at h ⊢; omega)]
      rw [ih (mkScheduledRecord cid now t p.1 p.2 :: st) (by simp at h ⊢; omega)]
      simp

/-- Every draft produced by the generation loop takes its recipient from a processed lead. -/
theorem genLoop_mem_recipient (now : Nat) (i : Nat)
    (pairs : List (OutreachLead × DraftResult)) (d : DraftEmail)
    (hd : d ∈ (genLoop now i pairs).1) :
    ∃ l r, (l, r) ∈ pairs ∧ d.recipient = l.email := by
  induction pairs generalizing i with
  | nil => simp [genLoop] at hd
  | cons p rest ih =>
      obtain ⟨l, r⟩ := p
      cases r with
      | ok subj bod =>
          simp only [genLoop] at hd
          rcases List.mem_cons.mp hd with rfl | hd1
          · exact ⟨l, DraftResult.ok subj bod, List.mem_cons_self _ _, rfl⟩
          · obtain ⟨l1, r1, hm, hr⟩ := ih (i + 1) hd1
            exact ⟨l1, r1, List.mem_cons_of_mem _ hm, hr⟩
      | error msg =>
          simp only [genLoop] at hd
          obtain ⟨l1, r1, hm, hr⟩ := ih (i + 1) hd
          exact ⟨l1, r1, List.mem_cons_of_mem _ hm, hr⟩

/-- Marks whether a draft-generation response was a thrown error. -/
def isErrorResult : OutreachLead × DraftResult → Bool :=
  fun p => match p.2 with
  | DraftResult.error _ => true
  | DraftResult.ok _ _ => false

/-- The generation loop logs exactly one line per errored lead. -/
theorem genLoop_logs_length (now : Nat) (i : Nat)
    (pairs : List (OutreachLead × DraftResult)) :
    (genLoop now i pairs).2.length = (pairs.filter isErrorResult).length := by
  induction pairs generalizing i with
  | nil => simp [genLoop]
  | cons p rest ih =>
      obtain ⟨l, r⟩ := p
      cases r with
      | ok subj bod =>
          simp only [genLoop]
          rw [List.filter_cons_of_neg (by simp [isErrorResult])]
          exact ih (i + 1)
      | error msg =>
          simp only [genLoop]
          rw [List.filter_cons_of_pos (by simp [isErrorResult])]
          simpa using ih (i + 1)

/-- If some record carries the id, `simulateEmailOpen` leaves a fully marked record. -/
theorem simulateEmailOpen_exists (store : List SentEmail) (emailId : String) (t : Nat)
    (h : ∃ e ∈ store, e.id = emailId) :
    ∃ r ∈ simulateEmailOpen store emailId t,
      r.id = emailId ∧ r.opened = true ∧ r.openedAt = some t := by
  induction store with
  | nil => simp at h
  | cons e rest ih =>
      by_cases hid : e.id = emailId
      · refine ⟨{ e with opened := true, openedAt := some t }, ?_, hid, rfl, rfl⟩
        simp [simulateEmailOpen, hid]
      · obtain ⟨x, hx, hxid⟩ := h
        rcases List.mem_cons.mp hx with rfl | hx1
        · exact absurd hxid hid
        · obtain ⟨r, hr, hprops⟩ := ih ⟨x, hx1, hxid⟩
          refine ⟨r, ?_, hprops⟩
          simp [simulateEmailOpen, hid, hr]

/-- A second `simulateEmailOpen` call overwrites the first one wholesale. -/
theorem simulateEmailOpen_twice (store : List SentEmail) (emailId : String) (t1 t2 : Nat) :
    simulateEmailOpen (simulateEmailOpen store emailId t1) emailId t2
      = simulateEmailOpen store emailId t2 := by
  induction store with
  | nil => rfl
  | cons e rest ih =>
      by_cases hid : e.id = emailId
      · simp [simulateEmailOpen, hid]
      · simp [simulateEmailOpen, hid, ih]

/-! ## Concrete states used by counterexamples and witnesses -/

/-- A stored send record used in concrete evaluations. -/
def sampleRecord : SentEmail :=
  { id := "A", campaignId := "C", recipient := "a@x.com", businessName := "Biz",
    subject := "s", body := "b", status := SendStatus.SENT, opened := false,
    timestamp := 0 }

/-- A lead the validator classified INVALID. -/
def invalidLead : OutreachLead :=
  { email := "bad@x.com", validationStatus := some ValidationStatus.INVALID }

/-- A lead the validator classified VALID. -/
def vLead : OutreachLead :=
  { email := "good@x.com", businessName := some "Biz",
    validationStatus := some ValidationStatus.VALID }

/-- After "start new" with a verified sender: INTAKE, everything cleared. -/
def stA : OrchState := resetFlow true initState

/-- After uploading one lead line (campaign name still the empty string). -/
def stB : OrchState := { stA with leads := ["bad@x.com"].map mkUploadLead }

/-- After the validator classified the lone lead INVALID. -/
def stC : OrchState := runMailValidator stB (some [invalidLead])

/-- Operator confirms the validation results. -/
def stD : OrchState := { stC with step := OutreachStep.OPTIONS }

/-- Operator picks the AI_CUSTOM strategy. -/
def stE : OrchState := { stD with mode := CampaignMode.AI_CUSTOM, step := OutreachStep.CONFIG }

/-- Draft generation triggered. -/
def stF : OrchState := { stE with step := OutreachStep.GENERATING }

/-- Generation completes: zero eligible leads, zero drafts, REVIEW entered. -/
def stG : OrchState := runGenerateLoop stF 7 [] 0 false

/-- Immediate dispatch authorized from a REVIEW state holding no drafts. -/
def stH : OrchState :=
  { stG with step := OutreachStep.SENDING,
             transmissionLogs := ["Broadcasting mission: " ++ stG.campaignName] }

theorem reach_stA : Reachable stA :=
  Reachable.step Reachable.init (Transition.startNew initState true rfl)

theorem reach_stB : Reachable stB :=
  Reachable.step reach_stA (Transition.uploadLeads stA ["bad@x.com"] (by decide))

theorem reach_stC : Reachable stC :=
  Reachable.step reach_stB (Transition.runValidator stB (some [invalidLead]) (by decide))

theorem reach_stD : Reachable stD :=
  Reachable.step reach_stC (Transition.confirmValidation stC (by decide))

theorem reach_stE : Reachable stE :=
  Reachable.step reach_stD (Transition.chooseMode stD CampaignMode.AI_CUSTOM (by decide))

theorem reach_stF : Reachable stF :=
  Reachable.step reach_stE (Transition.startGenerate stE (by decide))

theorem reach_stG : Reachable stG :=
  Reachable.step reach_stF
    (Transition.runGenerate stF 7 [] 0 false (by decide) (by decide) (by decide) (by decide))

theorem reach_stH : Reachable stH :=
  Reachable.step reach_stG (Transition.authorizeImmediate stG (by decide) (by decide))

/-! ## Claim C2 -/

/--
C2: the stats aggregation over the SendRecords of a given campaign id
computes `total` as the count of all records of the campaign, `sent` as
the count with outcome SENT, `failed` as the count with outcome FAILED,
`opened` as the count with `opened = true`, `successRate` as
`round(100*sent/total)` with 0 when `total` is 0, and `openRate` as
`round(100*opened/sent)` with 0 when `sent` is 0; being a pure function
of the store, it is recomputed from the records on every call.
-/
theorem c2_stats_aggregation (store : List SentEmail) (cid : String) :
    (getCampaignStats store cid).emails = getSentEmails store cid ∧
    (getCampaignStats store cid).total = (getSentEmails store cid).length ∧
    (getCampaignStats store cid).sent
      = ((getSentEmails store cid).filter fun e => decide (e.status = SendStatus.SENT)).length ∧
    (getCampaignStats store cid).failed
      = ((getSentEmails store cid).filter fun e => decide (e.status = SendStatus.FAILED)).length ∧
    (getCampaignStats store cid).opened
      = ((getSentEmails store cid).filter fun e => e.opened).length ∧
    (getCampaignStats store cid).successRate
      = (if (getSentEmails store cid).length = 0 then 0
         else mathRound (100 * (((getSentEmails store cid).filter
                fun e => decide (e.status = SendStatus.SENT)).length : ℚ)
              / ((getSentEmails store cid).length : ℚ))) ∧
    (getCampaignStats store cid).openRate
      = (if ((getSentEmails store cid).filter
              fun e => decide (e.status = SendStatus.SENT)).length = 0 then 0
         else mathRound (100 * (((getSentEmails store cid).filter
                fun e => e.opened).length : ℚ)
              / ((((getSentEmails store cid).filter
                fun e => decide (e.status = SendStatus.SENT)).length : ℚ)))) := by
  refine ⟨rfl, rfl, rfl, rfl, rfl, ?_, ?_⟩
  · have hs : (getCampaignStats store cid).successRate
        = (if 0 < (getSentEmails store cid).length
           then mathRound (((((getSentEmails store cid).filter
                  fun e => decide (e.status = SendStatus.SENT)).length : ℚ)
                / ((getSentEmails store cid).length : ℚ)) * 100) else 0) := rfl
    rw [hs]
    rcases Nat.eq_zero_or_pos (getSentEmails store cid).length with h | h
    · rw [if_neg (by omega), if_pos h]
    · rw [if_pos h, if_neg (by omega)]
      congr 1
      ring
  · have ho : (getCampaignStats store cid).openRate
        = (if 0 < ((getSentEmails store cid).filter
                fun e => decide (e.status = SendStatus.SENT)).length
           then mathRound (((((getSentEmails store cid).filter
                  fun e => e.opened).length : ℚ)
                / ((((getSentEmails store cid).filter
                  fun e => decide (e.status = SendStatus.SENT)).length : ℚ))) * 100) else 0) := rfl
    rw [ho]
    rcases Nat.eq_zero_or_pos ((getSentEmails store cid).filter
        fun e => decide (e.status = SendStatus.SENT)).length with h | h
    · rw [if_neg (by omega), if_pos h]
    · rw [if_pos h, if_neg (by omega)]
      congr 1
      ring

/-! ## Claim C5 -/

/--
C5 counterexample: calling mark-opened twice on the same SendRecord id is
NOT idempotent in the claimed sense — the second call (here at time 2,
after a first call at time 1) changes the store and leaves `openedAt`
equal to the SECOND call's timestamp, not the first call's.
-/
theorem c5_counterexample :
    simulateEmailOpen (simulateEmailOpen [sampleRecord] "A" 1) "A" 2
      ≠ simulateEmailOpen [sampleRecord] "A" 1 ∧
    (∃ r ∈ simulateEmailOpen (simulateEmailOpen [sampleRecord] "A" 1) "A" 2,
      r.id = "A" ∧ r.openedAt = some 2 ∧ r.openedAt ≠ some 1) := by decide

/--
C5 amended: calling mark-opened twice with the same SendRecord id leaves
the record with `opened = true` and is not an error, but `openedAt` is
overwritten with the SECOND call's timestamp (each call overwrites it
with its own current time); composing two calls equals just the second
call, so the operation is idempotent only when the timestamps agree.
-/
theorem c5_mark_opened_overwrites (store : List SentEmail) (emailId : String) (t1 t2 : Nat) :
    simulateEmailOpen (simulateEmailOpen store emailId t1) emailId t2
      = simulateEmailOpen store emailId t2 ∧
    ((∃ e ∈ store, e.id = emailId) →
      ∃ r ∈ simulateEmailOpen (simulateEmailOpen store emailId t1) emailId t2,
        r.id = emailId ∧ r.opened = true ∧ r.openedAt = some t2) := by
  refine ⟨simulateEmailOpen_twice store emailId t1 t2, ?_⟩
  intro h
  rw [simulateEmailOpen_twice store emailId t1 t2]
  exact simulateEmailOpen_exists store emailId t2 h

/-- C5 witness: the amended statement applied to a concrete store. -/
theorem c5_mark_opened_overwrites_witness :
    (∃ e ∈ [sampleRecord], e.id = "A") ∧
    (∃ r ∈ simulateEmailOpen (simulateEmailOpen [sampleRecord] "A" 1) "A" 2,
      r.id = "A" ∧ r.opened = true ∧ r.openedAt = some 2) :=
  ⟨by decide, (c5_mark_opened_overwrites [sampleRecord] "A" 1 2).2 (by decide)⟩

/-! ## Claim C6 -/

/--
C6: when the batch validation collaborator call fails with an error, the
validation step returns every lead of the input batch with
`validationStatus` set to UNCHECKED (none left in a partial state), and
all of them remain eligible for drafting (`validLeads` keeps them all).
-/
theorem c6_validator_failure_degrades (leads : List OutreachLead) (msg : String) :
    validateEmailsAgent leads (Except.error msg)
      = leads.map (fun l => { l with validationStatus := some ValidationStatus.UNCHECKED }) ∧
    (validateEmailsAgent leads (Except.error msg)).length = leads.length ∧
    (∀ l ∈ validateEmailsAgent leads (Except.error msg),
        l.validationStatus = some ValidationStatus.UNCHECKED) ∧
    validLeads (validateEmailsAgent leads (Except.error msg))
      = validateEmailsAgent leads (Except.error msg) := by
  have hmap : validateEmailsAgent leads (Except.error msg)
      = leads.map (fun l => { l with validationStatus := some ValidationStatus.UNCHECKED }) := rfl
  have hall : ∀ l ∈ validateEmailsAgent leads (Except.error msg),
      l.validationStatus = some ValidationStatus.UNCHECKED := by
    intro l hl
    rw [hmap] at hl
    obtain ⟨x, _, rfl⟩ := List.mem_map.mp hl
    rfl
  refine ⟨hmap, by rw [hmap]; simp, hall, ?_⟩
  apply List.filter_eq_self.mpr
  intro l hl
  have h1 := hall l hl
  simp [decide_eq_true_iff, h1]

/-- C6 witness: the degradation applied to a concrete batch. -/
theorem c6_validator_failure_degrades_witness :
    validateEmailsAgent [invalidLead] (Except.error "fault")
      = [invalidLead].map
          (fun l => { l with validationStatus := some ValidationStatus.UNCHECKED }) ∧
    validLeads (validateEmailsAgent [invalidLead] (Except.error "fault"))
      = validateEmailsAgent [invalidLead] (Except.error "fault") :=
  ⟨(c6_validator_failure_degrades [invalidLead] "fault").1,
   (c6_validator_failure_degrades [invalidLead] "fault").2.2.2⟩

/-! ## Claim C10 -/

/--
C10: the sent-email store retains at most the 10000 most recently
appended SendRecords (newest first), the activity log at most 5000
entries; appending at capacity silently drops the oldest record, so the
store is not durably append-only and the aggregated record count of an
old campaign can shrink after an append.
-/
theorem c10_retention (store : List SentEmail) (e : SentEmail)
    (logs : List ActivityLog) (lg : ActivityLog) :
    (logSentEmail store e).length ≤ 10000 ∧
    (logActivity logs lg).length ≤ 5000 ∧
    logSentEmail store e = (e :: store).take 10000 ∧
    (10000 ≤ store.length → logSentEmail store e = e :: store.take 9999) ∧
    (∀ cid : String, store.length = 10000 →
        (∀ r ∈ store, r.campaignId = cid) → e.campaignId ≠ cid →
        (getSentEmails (logSentEmail store e) cid).length
          < (getSentEmails store cid).length) := by
  have htake : logSentEmail store e = (e :: store).take 10000 := rfl
  have hcons : 10000 ≤ store.length → logSentEmail store e = e :: store.take 9999 := by
    intro h
    rw [htake, show (10000 : Nat) = 9999 + 1 from rfl, List.take_succ_cons]
  refine ⟨?_, ?_, htake, hcons, ?_⟩
  · rw [htake, List.length_take]
    exact min_le_left _ _
  · rw [show logActivity logs lg = (lg :: logs).take 5000 from rfl, List.length_take]
    exact min_le_left _ _
  · intro cid hlen hall hne
    rw [hcons (by omega)]
    unfold getSentEmails
    rw [List.filter_cons_of_neg (by simp [decide_eq_true_iff, hne])]
    have h1 : (store.take 9999).filter (fun r => decide (r.campaignId = cid))
        = store.take 9999 :=
      List.filter_eq_self.mpr fun r hr => by
        simp [decide_eq_true_iff, hall r (List.mem_of_mem_take hr)]
    have h2 : store.filter (fun r => decide (r.campaignId = cid)) = store :=
      List.filter_eq_self.mpr fun r hr => by simp [decide_eq_true_iff, hall r hr]
    rw [h1, h2, List.length_take, hlen]
    decide

/-- A fresh record belonging to a different campaign than `sampleRecord`. -/
def newRecord : SentEmail := { sampleRecord with id := "B", campaignId := "D" }

/-- A minimal activity-log entry. -/
def sampleLog : ActivityLog :=
  { id := "L", timestamp := 0, userId := "U", userEmail := "u@x.com",
    accountStatus := AccountStatus.TRIAL, type := ActivityType.CAMPAIGN,
    input := {}, output := { rowCount := 0 } }

/-- C10 witness: a full store really loses an old record on append. -/
theorem c10_retention_witness :
    (List.replicate 10000 sampleRecord).length = 10000 ∧
    (∀ r ∈ List.replicate 10000 sampleRecord, r.campaignId = "C") ∧
    newRecord.campaignId ≠ "C" ∧
    (getSentEmails (logSentEmail (List.replicate 10000 sampleRecord) newRecord) "C").length
      < (getSentEmails (List.replicate 10000 sampleRecord) "C").length := by
  have h1 : (List.replicate 10000 sampleRecord).length = 10000 :=
    List.length_replicate 10000 sampleRecord
  have h2 : ∀ r ∈ List.replicate 10000 sampleRecord, r.campaignId = "C" := by
    intro r hr
    rw [List.eq_of_mem_replicate hr]
    rfl
  have h3 : newRecord.campaignId ≠ "C" := by decide
  exact ⟨h1, h2, h3,
    (c10_retention (List.replicate 10000 sampleRecord) newRecord [] sampleLog).2.2.2.2
      "C" h1 h2 h3⟩

/-! ## Claim C1 -/

/-- A draft whose transport dispatch will fail. -/
def c1Draft : DraftEmail :=
  { id := "D1", recipient := "c@x.com", businessName := "Biz", subject := "s", body := "b" }

/-- A SENDING state holding exactly that draft over an empty store. -/
def c1State : OrchState :=
  { initState with step := OutreachStep.SENDING, drafts := [c1Draft], campaignName := "M" }

/-- The immediate dispatch run in which the single transport call fails. -/
def c1Final : OrchState :=
  executeDispatchImmediate c1State "CAMP-1" 5 "V-1" [DispatchResult.failure "boom"] 1 false

/--
C1 evaluated at the failing input: the immediate dispatch loop over one
draft whose transport call fails completes (SUMMARY reached), records the
campaign snapshot `total = 1, sent = 0, failed = 1` (so
`sent + failed = total` holds for the counters), but writes NO SendRecord
at all for the campaign — the `catch` block only increments the failed
counter and never calls `logSentEmail` — so the stored record count is 0,
not `total`, contradicting the claimed (and intended: the `SentEmail`
type declares a FAILED outcome, `getCampaignStats` counts FAILED records)
one-record-per-draft behaviour.
-/
theorem c1_dispatch_failure_writes_no_record :
    c1Final.step = OutreachStep.SUMMARY ∧
    c1Final.transportCalls = 1 ∧
    c1Final.backend.campaigns.length = 1 ∧
    (∀ c ∈ c1Final.backend.campaigns,
        c.stats.total = 1 ∧ c.stats.sent = 0 ∧ c.stats.failed = 1 ∧
        c.stats.sent + c.stats.failed = c.stats.total) ∧
    getSentEmails c1Final.backend.sentEmails "CAMP-1" = [] ∧
    (getCampaignStats c1Final.backend.sentEmails "CAMP-1").total = 0 := by decide

/-! ## Claim C8 -/

/--
C8 counterexample: from the reachable INTAKE state `stB`, whose campaign
name is still the empty string but whose lead list is non-empty, the
validator transition fires and the step becomes VALIDATION — the
transition does NOT require a non-empty campaign name.
-/
theorem c8_counterexample :
    Reachable stB ∧
    stB.step = OutreachStep.INTAKE ∧
    stB.campaignName = "" ∧
    stB.leads ≠ [] ∧
    Transition stB (runMailValidator stB (some [invalidLead])) ∧
    (runMailValidator stB (some [invalidLead])).step = OutreachStep.VALIDATION :=
  ⟨reach_stB, by decide, by decide, by decide,
   Transition.runValidator stB (some [invalidLead]) (by decide), by decide⟩

/--
C8 amended: the INTAKE → VALIDATION transition occurs exactly when the
lead list is non-empty — an empty lead list is rejected with no state
change, but the campaign name is never consulted by the guard.
-/
theorem c8_intake_guard (s : OrchState) (result : Option (List OutreachLead)) :
    (s.leads = [] → runMailValidator s result = s) ∧
    (s.leads ≠ [] → (runMailValidator s result).step = OutreachStep.VALIDATION) := by
  constructor
  · intro h
    simp [runMailValidator, h]
  · intro h
    have hne : ¬ s.leads.length = 0 := fun hl => h (List.length_eq_zero.mp hl)
    simp [runMailValidator, hne]

/-- C8 witness: both guard branches exercised on concrete states. -/
theorem c8_intake_guard_witness :
    stB.leads ≠ [] ∧
    (runMailValidator stB (some [invalidLead])).step = OutreachStep.VALIDATION ∧
    initState.leads = [] ∧
    runMailValidator initState none = initState :=
  ⟨by decide, (c8_intake_guard stB (some [invalidLead])).2 (by decide),
   rfl, (c8_intake_guard initState none).1 rfl⟩

/-! ## Claim C9 -/

/-- Operator sets a dispatch timestamp that already lies in the past. -/
def stI : OrchState := { stG with isScheduled := true, scheduledDateTime := some 0 }

theorem reach_stI : Reachable stI :=
  Reachable.step reach_stG (Transition.setSchedule stG true (some 0) (by decide))

/-- The scheduled commit performed at the (later) time 100. -/
def stJ : OrchState := executeDispatchScheduled stI "CAMP-9" 100 "V-9" []

/--
C9 counterexample: the scheduled-dispatch path out of REVIEW is taken for
ANY set timestamp — here the dispatch timestamp 0 lies strictly before
the commit time 100 (not in the future), yet the transition fires, a
SCHEDULED campaign is written and the step becomes SUMMARY.
-/
theorem c9_counterexample :
    Reachable stI ∧
    stI.step = OutreachStep.REVIEW ∧
    stI.scheduledDateTime = some 0 ∧
    (0 : Nat) < 100 ∧
    Transition stI stJ ∧
    stJ.step = OutreachStep.SUMMARY ∧
    stJ.backend.campaigns.length = 1 ∧
    (∀ c ∈ stJ.backend.campaigns,
        c.status = CampaignStatus.SCHEDULED ∧ c.scheduledTime = some 0) := by
  refine ⟨reach_stI, by decide, by decide, by decide, ?_, by decide, by decide, by decide⟩
  exact Transition.commitScheduled stI "CAMP-9" 100 "V-9" [] (by decide) (by decide) (by decide)

/--
C9 amended: the scheduled path out of REVIEW is guarded only by the
timestamp being set — with a missing timestamp nothing is written and the
state is unchanged, while with ANY set timestamp (future or past, the
commit time is never compared) the commit proceeds to SUMMARY.
-/
theorem c9_scheduled_guard (s : OrchState) (cid : String) (now : Nat) (vh : String)
    (recIds : List String) :
    (s.scheduledDateTime = none → executeDispatchScheduled s cid now vh recIds = s) ∧
    (∀ t, s.scheduledDateTime = some t →
        (executeDispatchScheduled s cid now vh recIds).step = OutreachStep.SUMMARY) := by
  constructor
  · intro h
    simp [executeDispatchScheduled, h]
  · intro t h
    simp [executeDispatchScheduled, h]

/-- C9 witness: both guard branches exercised on concrete states. -/
theorem c9_scheduled_guard_witness :
    stI.scheduledDateTime = some 0 ∧
    stJ.step = OutreachStep.SUMMARY ∧
    stG.scheduledDateTime = none ∧
    executeDispatchScheduled stG "CAMP-9" 100 "V-9" [] = stG := by
  refine ⟨by decide, ?_, by decide, ?_⟩
  · exact (c9_scheduled_guard stI "CAMP-9" 100 "V-9" []).2 0 (by decide)
  · exact (c9_scheduled_guard stG "CAMP-9" 100 "V-9" []).1 (by decide)

/-! ## Claim C7 -/

/-- Two leads the validator classified VALID. -/
def g2Lead1 : OutreachLead :=
  { email := "l1@x.com", validationStatus := some ValidationStatus.VALID }

def g2Lead2 : OutreachLead :=
  { email := "l2@x.com", validationStatus := some ValidationStatus.VALID }

/-- Validator returns two usable leads from the uploaded batch. -/
def stP : OrchState := runMailValidator stB (some [g2Lead1, g2Lead2])

def stQ : OrchState := { stP with step := OutreachStep.OPTIONS }

def stR : OrchState := { stQ with mode := CampaignMode.AI_CUSTOM, step := OutreachStep.CONFIG }

def stS : OrchState := { stR with step := OutreachStep.GENERATING }

/-- Generation aborted after 1 of 2 leads; the processed lead drafted successfully. -/
def stT : OrchState :=
  runGenerateLoop stS 3 [DraftResult.ok "s1" "b1", DraftResult.ok "s2" "b2"] 1 true

theorem reach_stP : Reachable stP :=
  Reachable.step reach_stB (Transition.runValidator stB (some [g2Lead1, g2Lead2]) (by decide))

theorem reach_stQ : Reachable stQ :=
  Reachable.step reach_stP (Transition.confirmValidation stP (by decide))

theorem reach_stR : Reachable stR :=
  Reachable.step reach_stQ (Transition.chooseMode stQ CampaignMode.AI_CUSTOM (by decide))

theorem reach_stS : Reachable stS :=
  Reachable.step reach_stR (Transition.startGenerate stR (by decide))

theorem reach_stT : Reachable stT :=
  Reachable.step reach_stS
    (Transition.runGenerate stS 3 [DraftResult.ok "s1" "b1", DraftResult.ok "s2" "b2"] 1 true
      (by decide) (by decide) (by decide) (by decide))

/--
C7 counterexample: aborting draft generation after k = 1 of n = 2 leads,
where the processed lead drafted successfully, leaves a transmission log
with 0 entries — not the claimed k = 1 entries (the loop logs only
drafting errors, never successes).  Drafts are discarded and the step
does return to OPTIONS.
-/
theorem c7_counterexample :
    Reachable stT ∧
    stT.step = OutreachStep.OPTIONS ∧
    stT.drafts = [] ∧
    stT.transmissionLogs.length = 0 ∧
    stT.transmissionLogs.length ≠ 1 :=
  ⟨reach_stT, by decide, by decide, by decide, by decide⟩

/--
C7 amended: when the cancellation flag is observed after k leads were
processed, the generation loop stops at the iteration boundary, every
produced draft is discarded (the drafts state is left as it was — empty
in a fresh cycle), the orchestrator transitions to OPTIONS rather than
REVIEW, and the transmission log gains one entry per FAILED generation
among the k processed leads (successful drafts log nothing), so it holds
k entries only when all k errored.
-/
theorem c7_abort_behaviour (s : OrchState) (now : Nat) (results : List DraftResult) (k : Nat)
    (h : s.step = OutreachStep.GENERATING) :
    (runGenerateLoop s now results k true).step = OutreachStep.OPTIONS ∧
    (runGenerateLoop s now results k true).drafts = s.drafts ∧
    (runGenerateLoop s now results k true).transmissionLogs.length
      = s.transmissionLogs.length
        + ((((validLeads s.leads).zip results).take k).filter isErrorResult).length := by
  refine ⟨rfl, rfl, ?_⟩
  have hlog : (runGenerateLoop s now results k true).transmissionLogs
      = s.transmissionLogs
        ++ (genLoop now 0 (((validLeads s.leads).zip results).take k)).2 := rfl
  rw [hlog, List.length_append, genLoop_logs_length]

/-- C7 witness: the amended behaviour at the concrete aborted run. -/
theorem c7_abort_behaviour_witness :
    stS.step = OutreachStep.GENERATING ∧
    stT.step = OutreachStep.OPTIONS ∧
    stT.drafts = stS.drafts ∧
    stT.transmissionLogs.length
      = stS.transmissionLogs.length
        + ((((validLeads stS.leads).zip
              [DraftResult.ok "s1" "b1", DraftResult.ok "s2" "b2"]).take 1).filter
            isErrorResult).length := by
  have h := c7_abort_behaviour stS 3 [DraftResult.ok "s1" "b1", DraftResult.ok "s2" "b2"] 1
    (by decide)
  exact ⟨by decide, h.1, h.2.1, h.2.2⟩

/-! ## Claim C4 -/

/--
C4: committing a scheduled dispatch from REVIEW (timestamp set) skips the
SENDING state — the single transition ends at SUMMARY — creates exactly
one Campaign with status SCHEDULED and the scheduled timestamp, writes
exactly one SendRecord per draft with outcome SCHEDULED and
`scheduledTime` set, and makes no transport dispatch calls.
-/
theorem c4_scheduled_dispatch (s : OrchState) (cid : String) (now t : Nat) (vh : String)
    (recIds : List String)
    (hstep : s.step = OutreachStep.REVIEW)
    (ht : s.scheduledDateTime = some t)
    (hlen : recIds.length = s.drafts.length)
    (hcap : s.backend.sentEmails.length + s.drafts.length ≤ 10000)
    (hfresh : ∀ e ∈ s.backend.sentEmails, e.campaignId ≠ cid)
    (hfreshc : ∀ c ∈ s.backend.campaigns, c.id ≠ cid) :
    (executeDispatchScheduled s cid now vh recIds).step = OutreachStep.SUMMARY ∧
    (executeDispatchScheduled s cid now vh recIds).transportCalls = s.transportCalls ∧
    (∃ camp, (executeDispatchScheduled s cid now vh recIds).backend.campaigns
        = camp :: s.backend.campaigns ∧
      camp.id = cid ∧ camp.status = CampaignStatus.SCHEDULED ∧
      camp.scheduledTime = some t ∧
      camp.stats.total = s.drafts.length ∧ camp.stats.sent = 0 ∧
      camp.stats.failed = 0 ∧ camp.stats.pending = s.drafts.length) ∧
    getSentEmails (executeDispatchScheduled s cid now vh recIds).backend.sentEmails cid
      = ((s.drafts.zip recIds).map fun p => mkScheduledRecord cid now t p.1 p.2).reverse ∧
    (getSentEmails (executeDispatchScheduled s cid now vh recIds).backend.sentEmails cid).length
      = s.drafts.length ∧
    (∀ e ∈ getSentEmails (executeDispatchScheduled s cid now vh recIds).backend.sentEmails cid,
        e.campaignId = cid ∧ e.status = SendStatus.SCHEDULED ∧ e.scheduledTime = some t) := by
  have hplen : (s.drafts.zip recIds).length = s.drafts.length := by
    rw [List.length_zip, hlen]
    exact min_self _
  have hstore : (executeDispatchScheduled s cid now vh recIds).backend.sentEmails
      = ((s.drafts.zip recIds).map fun p => mkScheduledRecord cid now t p.1 p.2).reverse
        ++ s.backend.sentEmails := by
    simp only [executeDispatchScheduled, ht]
    exact schedFold_eq cid now t _ _ (by rw [hplen]; exact hcap)
  have hrecs : getSentEmails (executeDispatchScheduled s cid now vh recIds).backend.sentEmails cid
      = ((s.drafts.zip recIds).map fun p => mkScheduledRecord cid now t p.1 p.2).reverse := by
    rw [hstore]
    unfold getSentEmails
    rw [List.filter_append]
    have hnew : (((s.drafts.zip recIds).map
          fun p => mkScheduledRecord cid now t p.1 p.2).reverse).filter
          (fun e => decide (e.campaignId = cid))
        = ((s.drafts.zip recIds).map fun p => mkScheduledRecord cid now t p.1 p.2).reverse := by
      apply List.filter_eq_self.mpr
      intro e he
      rw [List.mem_reverse] at he
      obtain ⟨p, _, rfl⟩ := List.mem_map.mp he
      simp [mkScheduledRecord]
    have hold : s.backend.sentEmails.filter (fun e => decide (e.campaignId = cid)) = [] :=
      List.filter_eq_nil_iff.mpr fun e he => by simp [decide_eq_true_iff, hfresh e he]
    rw [hnew, hold, List.append_nil]
  have hcamp : (executeDispatchScheduled s cid now vh recIds).backend.campaigns
      = ({ id := cid, userId := s.userId, name := s.campaignName, mode := s.mode,
           fileName := "manual_ingest.csv", senderEmail := s.senderEmail,
           scheduledTime := some t,
           stats := { total := s.drafts.length, sent := 0, failed := 0,
                      pending := s.drafts.length, opened := 0 },
           verificationHash := vh, createdAt := now,
           status := CampaignStatus.SCHEDULED } : Campaign) :: s.backend.campaigns := by
    simp only [executeDispatchScheduled, ht]
    unfold saveCampaign
    rw [if_neg ?hne]
    case hne =>
      intro hany
      rw [List.any_eq_true] at hany
      obtain ⟨x, hx, hxid⟩ := hany
      exact hfreshc x hx (of_decide_eq_true hxid)
  refine ⟨?_, ?_, ⟨_, hcamp, rfl, rfl, rfl, rfl, rfl, rfl, rfl⟩, hrecs, ?_, ?_⟩
  · simp only [executeDispatchScheduled, ht]
  · simp only [executeDispatchScheduled, ht]
  · rw [hrecs, List.length_reverse, List.length_map, hplen]
  · intro e he
    rw [hrecs, List.mem_reverse] at he
    obtain ⟨p, _, rfl⟩ := List.mem_map.mp he
    exact ⟨rfl, rfl, rfl⟩

/-- Drafts for the concrete scheduled-commit scenario. -/
def c4DraftA : DraftEmail :=
  { id := "DA", recipient := "a@x.com", businessName := "A", subject := "sa", body := "ba" }

def c4DraftB : DraftEmail :=
  { id := "DB", recipient := "b@x.com", businessName := "B", subject := "sb", body := "bb" }

/-- A REVIEW state with two drafts and a future dispatch timestamp set. -/
def c4State : OrchState :=
  { initState with
    step := OutreachStep.REVIEW,
    drafts := [c4DraftA, c4DraftB],
    isScheduled := true,
    scheduledDateTime := some 999,
    campaignName := "M" }

/-- C4 witness: two scheduled drafts produce two SCHEDULED records, no transport call. -/
theorem c4_scheduled_dispatch_witness :
    c4State.step = OutreachStep.REVIEW ∧
    c4State.scheduledDateTime = some 999 ∧
    (executeDispatchScheduled c4State "CAMP-4" 5 "V-4" ["S1", "S2"]).step
      = OutreachStep.SUMMARY ∧
    (getSentEmails
        (executeDispatchScheduled c4State "CAMP-4" 5 "V-4" ["S1", "S2"]).backend.sentEmails
        "CAMP-4").length = 2 ∧
    (executeDispatchScheduled c4State "CAMP-4" 5 "V-4" ["S1", "S2"]).transportCalls
      = c4State.transportCalls := by
  have h := c4_scheduled_dispatch c4State "CAMP-4" 5 999 "V-4" ["S1", "S2"]
    (by decide) (by decide) (by decide) (by decide) (by decide) (by decide)
  exact ⟨by decide, by decide, h.1, h.2.2.2.2.1.trans (by decide), h.2.1⟩

/-! ## Claim C3 -/

/--
C3 counterexample: a reachable run enters SENDING with an empty draft
list.  The trace uploads one lead, the validator classifies it INVALID,
generation then has zero eligible leads and completes with zero drafts,
REVIEW is entered, and the immediate dispatch authorization — which never
checks `drafts.length` — moves to SENDING.
-/
theorem c3_counterexample :
    Reachable stH ∧ stH.step = OutreachStep.SENDING ∧ stH.drafts = [] :=
  ⟨reach_stH, by decide, by decide⟩

/--
C3 amended: in every reachable run, whenever the orchestrator is in
REVIEW, each draft references a lead of the current batch whose
validation state is not INVALID (drafting filters INVALID leads out);
the other half of the original claim is false — SENDING can be entered
with an empty draft list, see the counterexample.
-/
theorem c3_review_drafts_not_invalid (s : OrchState) (hr : Reachable s) :
    s.step = OutreachStep.REVIEW →
    ∀ d ∈ s.drafts, ∃ l ∈ s.leads,
      l.email = d.recipient ∧ l.validationStatus ≠ some ValidationStatus.INVALID := by
  induction hr with
  | init =>
      intro hstep
      exact absurd hstep (by decide)
  | @step s t hr ht ih =>
      cases ht with
      | startNew v h =>
          intro hstep
          cases v <;> exact OutreachStep.noConfusion hstep
      | verifyOk h =>
          intro hstep
          exact OutreachStep.noConfusion hstep
      | setName n h =>
          intro hstep
          rw [show ({ s with campaignName := n } : OrchState).step = s.step from rfl, h] at hstep
          exact OutreachStep.noConfusion hstep
      | uploadLeads lines h =>
          intro hstep
          rw [show ({ s with leads := lines.map mkUploadLead } : OrchState).step = s.step
              from rfl, h] at hstep
          exact OutreachStep.noConfusion hstep
      | runValidator result h =>
          intro hstep
          by_cases hl : s.leads.length = 0
          · have he : runMailValidator s result = s := by simp [runMailValidator, hl]
            rw [he, h] at hstep
            exact OutreachStep.noConfusion hstep
          · have he : (runMailValidator s result).step = OutreachStep.VALIDATION := by
              simp [runMailValidator, hl]
            rw [he] at hstep
            exact OutreachStep.noConfusion hstep
      | confirmValidation h =>
          intro hstep
          exact OutreachStep.noConfusion hstep
      | chooseMode m h =>
          intro hstep
          exact OutreachStep.noConfusion hstep
      | setTemplates subj bod h =>
          intro hstep
          rw [show ({ s with subject := subj, body := bod } : OrchState).step = s.step
              from rfl, h] at hstep
          exact OutreachStep.noConfusion hstep
      | startGenerate h =>
          intro hstep
          exact OutreachStep.noConfusion hstep
      | runGenerate now results k aborted h hlen hk hab =>
          intro hstep
          cases aborted with
          | true =>
              have he : (runGenerateLoop s now results k true).step
                  = OutreachStep.OPTIONS := rfl
              rw [he] at hstep
              exact OutreachStep.noConfusion hstep
          | false =>
              have hd : (runGenerateLoop s now results k false).drafts
                  = (genLoop now 0 (((validLeads s.leads).zip results).take k)).1 := rfl
              have hl : (runGenerateLoop s now results k false).leads = s.leads := rfl
              rw [hd, hl]
              intro d hdm
              obtain ⟨l, r, hmem, hrec⟩ := genLoop_mem_recipient now 0 _ d hdm
              have hzip := List.mem_of_mem_take hmem
              have hlm : l ∈ validLeads s.leads := (List.of_mem_zip hzip).1
              unfold validLeads at hlm
              obtain ⟨hls, hpred⟩ := List.mem_filter.mp hlm
              exact ⟨l, hls, hrec.symm, of_decide_eq_true hpred⟩
      | setSchedule b t2 h =>
          intro hstep
          exact ih h
      | commitScheduled cid now vh recIds h hsch hids =>
          intro hstep
          rcases hsd : s.scheduledDateTime with _ | t2
          · have he : executeDispatchScheduled s cid now vh recIds = s := by
              simp [executeDispatchScheduled, hsd]
            rw [he]
            exact ih h
          · have he : (executeDispatchScheduled s cid now vh recIds).step
                = OutreachStep.SUMMARY := by
              simp [executeDispatchScheduled, hsd]
            rw [he] at hstep
            exact OutreachStep.noConfusion hstep
      | authorizeImmediate h him =>
          intro hstep
          exact OutreachStep.noConfusion hstep
      | runSend cid now vh outcomes k aborted h hlen hk hab =>
          intro hstep
          cases aborted with
          | true =>
              have he : (executeDispatchImmediate s cid now vh outcomes k true).step
                  = s.step := rfl
              rw [he, h] at hstep
              exact OutreachStep.noConfusion hstep
          | false =>
              have he : (executeDispatchImmediate s cid now vh outcomes k false).step
                  = OutreachStep.SUMMARY := rfl
              rw [he] at hstep
              exact OutreachStep.noConfusion hstep
      | dismissSummary v h =>
          intro hstep
          cases v <;> exact OutreachStep.noConfusion hstep
      | openDetail cid h =>
          intro hstep
          exact OutreachStep.noConfusion hstep
      | closeDetail h =>
          intro hstep
          exact OutreachStep.noConfusion hstep

/-- Validator returns one usable lead (second trace, for the witness). -/
def stV : OrchState := runMailValidator stB (some [vLead])

def stW : OrchState := { stV with step := OutreachStep.OPTIONS }

def stX : OrchState := { stW with mode := CampaignMode.AI_CUSTOM, step := OutreachStep.CONFIG }

def stY : OrchState := { stX with step := OutreachStep.GENERATING }

/-- Generation completes on the single valid lead: REVIEW with one draft. -/
def stZ : OrchState := runGenerateLoop stY 7 [DraftResult.ok "S" "B"] 1 false

theorem reach_stV : Reachable stV :=
  Reachable.step reach_stB (Transition.runValidator stB (some [vLead]) (by decide))

theorem reach_stW : Reachable stW :=
  Reachable.step reach_stV (Transition.confirmValidation stV (by decide))

theorem reach_stX : Reachable stX :=
  Reachable.step reach_stW (Transition.chooseMode stW CampaignMode.AI_CUSTOM (by decide))

theorem reach_stY : Reachable stY :=
  Reachable.step reach_stX (Transition.startGenerate stX (by decide))

theorem reach_stZ : Reachable stZ :=
  Reachable.step reach_stY
    (Transition.runGenerate stY 7 [DraftResult.ok "S" "B"] 1 false
      (by decide) (by decide) (by decide) (by decide))

/-- C3 witness: the invariant applied non-vacuously at a reachable REVIEW state. -/
theorem c3_review_drafts_not_invalid_witness :
    Reachable stZ ∧ stZ.step = OutreachStep.REVIEW ∧ stZ.drafts ≠ [] ∧
    (∀ d ∈ stZ.drafts, ∃ l ∈ stZ.leads,
      l.email = d.recipient ∧ l.validationStatus ≠ some ValidationStatus.INVALID) :=
  ⟨reach_stZ, by decide, by decide,
   c3_review_drafts_not_invalid stZ reach_stZ (by decide)⟩

end DigiPolli
